import Mathlib

/-!
Verification development for the openlava-python client library.

The compiled extension modules (lsblib / lslib) are not part of the source
tree here; only their tests, build glue and helpers are.  The data layer,
cursor protocol, submission service and event-log reader below are therefore
modelled from the specification, faithful to its words, and the claims are
settled against that model.
-/

/-- Modelled from the spec: the ErrorRegistry taxonomy (section 7) — the
outcome kind of the most recently completed scheduler call. -/
inductive LsbErrno where
  | NoError
  | NotFound
  | Eof
  | EventFormat
  | ConnectionError
  | ConnectionTimeout
  | BadRequest
  | PermissionDenied
  | Unknown
deriving DecidableEq

/-- Modelled from the spec: PidInfo holds pid/ppid/pgid/jobid, each at
least -1 (section 3, RunRusage). -/
structure PidInfo where
  pid : Int
  ppid : Int
  pgid : Int
  jobid : Int

/-- Modelled from the spec: RunRusage — memory, swap, user/system time
(each at least -1, -1 meaning unavailable), process count npids with a
pidInfo list of exactly that length, process-group count npgids with a
matching pgid list (section 3). -/
structure RunRusage where
  mem : Int
  swap : Int
  utime : Int
  stime : Int
  npids : Int
  pidInfo : List PidInfo
  npgids : Int
  pgid : List Int

/-- Modelled from the spec: XFile, one file-transfer directive — source
path, destination path, transfer option flags (section 3).  The native
object stores the paths in character buffers; the attribute accessors
below convert to and from text. -/
structure XFile where
  subFn : List Char
  execFn : List Char
  options : Int

/-- A freshly constructed XFile: empty paths, zero options. -/
def XFile.new : XFile :=
  { subFn := [], execFn := [], options := 0 }

/-- Attribute assignment of the source path: stores the characters of the
given text. -/
def XFile.setSubFn (x : XFile) (s : String) : XFile :=
  { x with subFn := s.data }

/-- Attribute assignment of the destination path. -/
def XFile.setExecFn (x : XFile) (s : String) : XFile :=
  { x with execFn := s.data }

/-- Attribute assignment of the option flags. -/
def XFile.setOptions (x : XFile) (o : Int) : XFile :=
  { x with options := o }

/-- Attribute read of the source path, returned as text. -/
def XFile.getSubFn (x : XFile) : String :=
  String.mk x.subFn

/-- Attribute read of the destination path, returned as text. -/
def XFile.getExecFn (x : XFile) : String :=
  String.mk x.execFn

/-- Modelled from the spec: Submit, a job submission template — option
bitmasks, numeric limits, signal value, times, 10 resource limits (each an
integer at least -1), asked-host list of length numAskedHosts, transfer
list xf of length nxf, and the string fields (section 3). -/
structure Submit where
  options : Int
  options2 : Int
  numProcessors : Int
  maxNumProcessors : Int
  numAskedHosts : Int
  askedHosts : List String
  rLimits : List Int
  nxf : Int
  xf : List XFile
  sigValue : Int
  delOptions : Int
  delOptions2 : Int
  userPriority : Int
  beginTime : Int
  termTime : Int
  chkpntPeriod : Int
  jobName : String
  queue : String
  resReq : String
  hostSpec : String
  dependCond : String
  inFile : String
  outFile : String
  errFile : String
  command : String
  chkpntDir : String
  preExecCmd : String
  mailUser : String
  projectName : String
  loginShell : String

/-- A freshly constructed Submit template: zeroed counts and bitmasks,
empty lists and strings, all 10 resource limits unset (-1). -/
def Submit.empty : Submit :=
  { options := 0, options2 := 0, numProcessors := 0, maxNumProcessors := 0
    numAskedHosts := 0, askedHosts := [], rLimits := List.replicate 10 (-1)
    nxf := 0, xf := [], sigValue := 0, delOptions := 0, delOptions2 := 0
    userPriority := 0, beginTime := 0, termTime := 0, chkpntPeriod := 0
    jobName := "", queue := "", resReq := "", hostSpec := "", dependCond := ""
    inFile := "", outFile := "", errFile := "", command := "", chkpntDir := ""
    preExecCmd := "", mailUser := "", projectName := "", loginShell := "" }

/-- Modelled from the spec: the structured wall-clock time value into which
the marshaller decodes raw epoch-second timestamps (section 4.4: timestamps
decode to a structured time value, not a raw count of seconds).  Mirrors
the broken-down calendar time the bindings hand back. -/
structure StructTime where
  tm_year : Int
  tm_mon : Nat
  tm_mday : Nat
  tm_hour : Nat
  tm_min : Nat
  tm_sec : Nat

/-- Civil date from a count of days since the epoch (proleptic Gregorian
calendar): year, month, day. -/
def civilFromDays (z0 : Int) : Int × Nat × Nat :=
  let z := z0 + 719468
  let era : Int := Int.ediv z 146097
  let doe : Nat := (z - era * 146097).toNat
  let yoe : Nat := (doe - doe / 1460 + doe / 36524 - doe / 146096) / 365
  let y : Int := (yoe : Int) + era * 400
  let doy : Nat := doe - (365 * yoe + yoe / 4 - yoe / 100)
  let mp : Nat := (5 * doy + 2) / 153
  let d : Nat := doy - (153 * mp + 2) / 5 + 1
  let m : Nat := if mp < 10 then mp + 3 else mp - 9
  ((if m ≤ 2 then y + 1 else y), m, d)

/-- Broken-down UTC time from raw epoch seconds. -/
def gmtime (t : Int) : StructTime :=
  let days := Int.ediv t 86400
  let secs := (Int.emod t 86400).toNat
  let ymd := civilFromDays days
  { tm_year := ymd.1, tm_mon := ymd.2.1, tm_mday := ymd.2.2
    tm_hour := secs / 3600, tm_min := secs % 3600 / 60, tm_sec := secs % 60 }

/-- Modelled from the spec: the raw job record as held by the scheduler
master — fixed-width fields, count fields, and variable-length arrays whose
lengths are governed by the counts, with timestamps still raw epoch
seconds (sections 3 and 4.4). -/
structure RawJob where
  jobId : Int
  user : String
  status : Int
  reasons : Int
  subreasons : Int
  numReasons : Int
  jobPid : Int
  submitTime : Int
  reserveTime : Int
  startTime : Int
  predictedStartTime : Int
  endTime : Int
  umask : Int
  cwd : String
  subHomeDir : String
  fromHost : String
  exHosts : List String
  numExHosts : Int
  nIdx : Int
  loadSched : List Rat
  loadStop : List Rat
  exitStatus : Int
  execUid : Int
  execHome : String
  execCwd : String
  execUsername : String
  jType : Int
  port : Int
  jobPriority : Int
  jRusageUpdateTime : Int
  parentGroup : String
  jName : String
  counter : List Int
  cpuFactor : Rat
  cpuTime : Rat
  submit : Submit
  runRusage : RunRusage

/-- Modelled from the spec: JobInfoEnt, the decoded point-in-time job
snapshot handed to callers — identical to the raw record except that the
five timestamps are exposed as structured time values (section 3). -/
structure JobInfoEnt where
  jobId : Int
  user : String
  status : Int
  reasons : Int
  subreasons : Int
  numReasons : Int
  jobPid : Int
  submitTime : StructTime
  reserveTime : StructTime
  startTime : StructTime
  predictedStartTime : StructTime
  endTime : StructTime
  umask : Int
  cwd : String
  subHomeDir : String
  fromHost : String
  exHosts : List String
  numExHosts : Int
  nIdx : Int
  loadSched : List Rat
  loadStop : List Rat
  exitStatus : Int
  execUid : Int
  execHome : String
  execCwd : String
  execUsername : String
  jType : Int
  port : Int
  jobPriority : Int
  jRusageUpdateTime : Int
  parentGroup : String
  jName : String
  counter : List Int
  cpuFactor : Rat
  cpuTime : Rat
  submit : Submit
  runRusage : RunRusage

/-- Modelled from the spec: the marshaller's validity check for a
submission template record — every count field equals the length of its
companion array, the 10 resource limits are present and each at least -1
(sections 3 and 4.4). -/
def wfSubmit (s : Submit) : Bool :=
  (s.numAskedHosts == (s.askedHosts.length : Int)) &&
  (s.nxf == (s.xf.length : Int)) &&
  (s.rLimits.length == 10) &&
  s.rLimits.all (fun l => decide (-1 ≤ l))

/-- Modelled from the spec: the marshaller's validity check for a resource
usage record — npids equals the pidInfo length, npgids equals the pgid
length, and every rusage integer is at least -1 (section 3, RunRusage). -/
def wfRunRusage (ru : RunRusage) : Bool :=
  (ru.npids == (ru.pidInfo.length : Int)) &&
  (ru.npgids == (ru.pgid.length : Int)) &&
  decide (-1 ≤ ru.mem) && decide (-1 ≤ ru.swap) &&
  decide (-1 ≤ ru.utime) && decide (-1 ≤ ru.stime) &&
  ru.pidInfo.all (fun p =>
    decide (-1 ≤ p.pid) && decide (-1 ≤ p.ppid) &&
    decide (-1 ≤ p.pgid) && decide (-1 ≤ p.jobid)) &&
  ru.pgid.all (fun g => decide (-1 ≤ g))

/-- Modelled from the spec: the marshaller's validity check for a raw job
record — each count field equals its companion array's length, the 7-slot
counter array is complete, and the embedded template and rusage records are
themselves valid (sections 3 and 4.4). -/
def wfRawJob (r : RawJob) : Bool :=
  (r.nIdx == (r.loadSched.length : Int)) &&
  (r.nIdx == (r.loadStop.length : Int)) &&
  (r.numExHosts == (r.exHosts.length : Int)) &&
  (r.counter.length == 7) &&
  wfSubmit r.submit &&
  wfRunRusage r.runRusage

/-- Field-for-field construction of the decoded snapshot from a valid raw
record; the five timestamps become structured time values. -/
def mkJob (r : RawJob) : JobInfoEnt :=
  { jobId := r.jobId, user := r.user, status := r.status
    reasons := r.reasons, subreasons := r.subreasons, numReasons := r.numReasons
    jobPid := r.jobPid
    submitTime := gmtime r.submitTime
    reserveTime := gmtime r.reserveTime
    startTime := gmtime r.startTime
    predictedStartTime := gmtime r.predictedStartTime
    endTime := gmtime r.endTime
    umask := r.umask, cwd := r.cwd, subHomeDir := r.subHomeDir
    fromHost := r.fromHost, exHosts := r.exHosts, numExHosts := r.numExHosts
    nIdx := r.nIdx, loadSched := r.loadSched, loadStop := r.loadStop
    exitStatus := r.exitStatus, execUid := r.execUid, execHome := r.execHome
    execCwd := r.execCwd, execUsername := r.execUsername
    jType := r.jType, port := r.port, jobPriority := r.jobPriority
    jRusageUpdateTime := r.jRusageUpdateTime
    parentGroup := r.parentGroup, jName := r.jName, counter := r.counter
    cpuFactor := r.cpuFactor, cpuTime := r.cpuTime
    submit := r.submit, runRusage := r.runRusage }

/-- Modelled from the spec: the marshaller's decode of one job record —
fail fast (reject the record) when a count field and its array disagree,
rather than silently truncating (section 4.4). -/
def decodeJob (r : RawJob) : Option JobInfoEnt :=
  if wfRawJob r then some (mkJob r) else none

/-- Modelled from the spec: the two states of the job cursor (section
4.3). -/
inductive CursorStatus where
  | opened
  | closed
deriving DecidableEq

/-- Modelled from the spec: the scheduler master's authoritative job
table, held server-side and filtered by the cursor open call. -/
structure SchedState where
  jobs : List RawJob

/-- Modelled from the spec: the client connection — the process-wide
ErrorRegistry slot, the cursor state, and the server-side pending result
set the open call materialised (sections 4.1 and 4.3). -/
structure JobConn where
  errno : LsbErrno
  cursor : CursorStatus
  pending : List RawJob

/-- Reading the ErrorRegistry slot of the connection. -/
def get_lsberrno (c : JobConn) : LsbErrno :=
  c.errno

/-- Modelled from the spec: the cursor filter — by job id, submitting
user, queue, host, or all (section 4.3). -/
inductive JobFilter where
  | all
  | byJobId (id : Int)
  | byUser (u : String)
  | byQueue (q : String)
  | byHost (h : String)

/-- Whether a raw job record matches a cursor filter. -/
def matchesFilter (f : JobFilter) (j : RawJob) : Bool :=
  match f with
  | JobFilter.all => true
  | JobFilter.byJobId i => j.jobId == i
  | JobFilter.byUser u => j.user == u
  | JobFilter.byQueue q => j.submit.queue == q
  | JobFilter.byHost h => j.exHosts.contains h

/-- Modelled from the spec: opening the cursor — the master filters its job
table, the call returns the number of matching records and transitions the
cursor to the open state, discarding any prior session.  Convention chosen
for a job-id filter that matches nothing (the section 9 open question): the
call returns a literal zero count and sets the ErrorRegistry to NotFound
(sections 4.3 and 8). -/
def lsb_openjobinfo (sched : SchedState) (f : JobFilter) (_c : JobConn) : Int × JobConn :=
  let ms := sched.jobs.filter (matchesFilter f)
  if ms.isEmpty then
    match f with
    | JobFilter.byJobId _ =>
        (0, { errno := LsbErrno.NotFound, cursor := CursorStatus.opened, pending := [] })
    | _ =>
        (0, { errno := LsbErrno.NoError, cursor := CursorStatus.opened, pending := [] })
  else
    ((ms.length : Int), { errno := LsbErrno.NoError, cursor := CursorStatus.opened, pending := ms })

/-- Modelled from the spec: reading the next record — valid only in the
open state (BadRequest otherwise), Eof once the session is exhausted, and
each returned record passes through the fail-fast marshaller (sections 4.3
and 4.4). -/
def lsb_readjobinfo (c : JobConn) : Option JobInfoEnt × JobConn :=
  match c.cursor with
  | CursorStatus.closed => (none, { c with errno := LsbErrno.BadRequest })
  | CursorStatus.opened =>
    match c.pending with
    | [] => (none, { c with errno := LsbErrno.Eof })
    | r :: rest =>
      match decodeJob r with
      | some j => (some j, { c with pending := rest, errno := LsbErrno.NoError })
      | none => (none, { c with pending := rest, errno := LsbErrno.BadRequest })

/-- Modelled from the spec: closing the cursor — valid in any state,
releases the session's pending records and transitions to the closed
state; calling it again when already closed is a no-op, not an error
(section 4.3). -/
def lsb_closejobinfo (_c : JobConn) : JobConn :=
  { errno := LsbErrno.NoError, cursor := CursorStatus.closed, pending := [] }

/-- Modelled from the spec: one decoded accounting/event record — the
record shape is event-type-specific and versioned by the external
scheduler, decoded opaquely; kept here as the event type tag, the event
time, and the remaining fields (section 6). -/
structure EventRec where
  eventType : String
  eventTime : Int
  fields : List String

/-- Modelled from the spec: one line of the persisted accounting/event
log, as the reader sees it — either a line that parses to an event record,
or a malformed line kept as raw text (sections 4.6 and 6). -/
inductive LogLine where
  | ok (e : EventRec)
  | bad (raw : String)

/-- Modelled from the spec: the event-log reader's next call — reads the
line at the given row of the stream; end of stream signals Eof, a
well-formed line yields its record with NoError, and a malformed line
yields no record with the ErrorRegistry kind EventFormat, never an
exception (section 4.6). -/
def lsb_geteventrec (stream : List LogLine) (rowNum : Nat) : Option EventRec × LsbErrno :=
  match stream.drop rowNum with
  | [] => (none, LsbErrno.Eof)
  | LogLine.ok e :: _ => (some e, LsbErrno.NoError)
  | LogLine.bad _ :: _ => (none, LsbErrno.EventFormat)

/-- The records collected by reading the stream sequentially to Eof,
skipping malformed lines, as the accounting-log loop does. -/
def readEvents : List LogLine → List EventRec
  | [] => []
  | LogLine.ok e :: rest => e :: readEvents rest
  | LogLine.bad _ :: rest => readEvents rest

/-- Modelled from the spec: SubmitReply — the result of a submission,
carrying the new job identifier on success, or a failure indication plus
the index and name of the rejected field (section 3). -/
structure SubmitReply where
  jobId : Int
  queue : String
  badReqIndx : Int
  badJobName : String

/-- Modelled from the spec: QueueInfoEnt, a scheduling queue record —
name, description, priority, nice, user and host lists, nIdx with the two
load arrays of that length, limits (11 resource limits, each at least -1),
bitmasks, job counts, and scheduling parameters (section 3). -/
structure QueueInfoEnt where
  queue : String
  description : String
  priority : Int
  nice : Int
  userList : List String
  hostList : List String
  nIdx : Int
  loadSched : List Rat
  loadStop : List Rat
  userJobLimit : Int
  procJobLimit : Rat
  windows : String
  rLimits : List Int
  hostSpec : String
  qAttrib : Int
  qStatus : Int
  maxJobs : Int
  numJobs : Int
  numPEND : Int
  numRUN : Int
  numSSUSP : Int
  numUSUSP : Int
  mig : Int
  schedDelay : Int
  acceptIntvl : Int

/-- Modelled from the spec: the marshaller's validity check for a queue
record — non-empty name, nIdx equal to both load array lengths, the 11
resource limits present and each at least -1, non-empty user and host
names (sections 3 and 4.4). -/
def wfQueue (q : QueueInfoEnt) : Bool :=
  (q.queue != "") &&
  (q.nIdx == (q.loadSched.length : Int)) &&
  (q.nIdx == (q.loadStop.length : Int)) &&
  decide (0 ≤ q.nIdx) &&
  (q.rLimits.length == 11) &&
  q.rLimits.all (fun l => decide (-1 ≤ l)) &&
  q.userList.all (fun u => u != "") &&
  q.hostList.all (fun h => h != "")

/-- Modelled from the spec: the marshaller's fail-fast decode of one queue
record (section 4.4). -/
def decodeQueue (q : QueueInfoEnt) : Option QueueInfoEnt :=
  if wfQueue q then some q else none

/-- Generic fail-fast decode of a list of raw records: succeeds with the
list of decoded records only when every element decodes. -/
def decodeAll {α β : Type} (f : α → Option β) : List α → Option (List β)
  | [] => some []
  | a :: rest =>
    match f a, decodeAll f rest with
    | some b, some bs => some (b :: bs)
    | _, _ => none

/-- Modelled from the spec: the batch connection state used by the
submission service — the next job identifier the master will assign, the
accepted submissions, the raw queue table, and the ErrorRegistry slot
(sections 4.1 and 4.5). -/
structure BatchState where
  nextJobId : Nat
  submitted : List (Int × Submit)
  queues : List QueueInfoEnt
  errno : LsbErrno

/-- Modelled from the spec: initializing the batch library for the calling
application; returns a non-negative handle on success (section 6). -/
def lsb_init (_appName : String) : Int :=
  0

/-- Modelled from the spec: the submission service's client-side
validation — numProcessors at most maxNumProcessors, resource limits at
least -1, and array-length fields consistent with their companion counts
(section 4.5). -/
def wfSubmitReq (s : Submit) : Bool :=
  decide (s.numProcessors ≤ s.maxNumProcessors) && wfSubmit s

/-- Modelled from the spec: the submission exchange — an invalid template
fails locally with BadRequest, without contacting the master and without
producing a job identifier; a valid template is accepted by the master and
the reply carries the newly assigned identifier, which is at least 0
(sections 4.5 and 8). -/
def lsb_submit (st : BatchState) (s : Submit) : SubmitReply × BatchState :=
  if wfSubmitReq s then
    ({ jobId := (st.nextJobId : Int), queue := s.queue, badReqIndx := -1, badJobName := "" },
     { st with
        nextJobId := st.nextJobId + 1
        submitted := st.submitted ++ [((st.nextJobId : Int), s)]
        errno := LsbErrno.NoError })
  else
    ({ jobId := -1, queue := s.queue, badReqIndx := 0, badJobName := s.jobName },
     { st with errno := LsbErrno.BadRequest })

/-- Modelled from the spec: the queue-info query — every returned record
passes through the fail-fast marshaller (sections 4.4 and 6). -/
def lsb_queueinfo (st : BatchState) : Option (List QueueInfoEnt) :=
  decodeAll decodeQueue st.queues

/-- Modelled from the spec: the raw resource definition as received from
the master, with valueType and orderType still raw enumeration codes
(section 3, ResItem). -/
structure RawResItem where
  name : String
  des : String
  flags : Int
  interval : Int
  valueType : Int
  orderType : Int

/-- Modelled from the spec: ResItem, a decoded resource definition —
non-empty name, non-negative flags and interval, and the two enumeration
fields decoded to their documented symbolic values (section 3). -/
structure ResItem where
  name : String
  des : String
  flags : Int
  interval : Int
  valueType : String
  orderType : String

/-- Decode of the raw valueType enumeration code into its documented
symbolic value: Boolean, Numeric, String or External. -/
def decodeValueType (v : Int) : Option String :=
  if v = 0 then some "LS_BOOLEAN"
  else if v = 1 then some "LS_NUMERIC"
  else if v = 2 then some "LS_STRING"
  else if v = 3 then some "LS_EXTERNAL"
  else none

/-- Decode of the raw orderType enumeration code into its documented
symbolic value: Increasing, Decreasing or NotApplicable. -/
def decodeOrderType (o : Int) : Option String :=
  if o = 0 then some "INCR"
  else if o = 1 then some "DECR"
  else if o = 2 then some "NA"
  else none

/-- Modelled from the spec: the marshaller's fail-fast decode of one
resource definition — rejects an empty name, a negative flags bitmask or
interval, and any enumeration code outside the documented sets (sections 3
and 4.4). -/
def decodeResItem (r : RawResItem) : Option ResItem :=
  if r.name = "" ∨ r.flags < 0 ∨ r.interval < 0 then none
  else
    match decodeValueType r.valueType, decodeOrderType r.orderType with
    | some v, some o =>
        some { name := r.name, des := r.des, flags := r.flags
               interval := r.interval, valueType := v, orderType := o }
    | _, _ => none

/-- Modelled from the spec: the raw static per-host capability record held
by the master (section 3, HostInfo). -/
structure RawHost where
  hostName : String
  hostType : String
  hostModel : String
  cpuFactor : Rat
  maxCpus : Int
  maxMem : Int
  maxSwap : Int
  maxTmp : Int
  nDisks : Int
  resources : List RawResItem
  windows : String
  busyThreshold : List Rat
  isServer : Bool
  rexPriority : Int

/-- Modelled from the spec: HostInfo, the decoded static per-host
capability snapshot — name, type and model all non-empty, non-negative CPU
factor and capacities, the resource list decoded to ResItems with nRes its
length (section 3). -/
structure HostInfo where
  hostName : String
  hostType : String
  hostModel : String
  cpuFactor : Rat
  maxCpus : Int
  maxMem : Int
  maxSwap : Int
  maxTmp : Int
  nDisks : Int
  nRes : Int
  resources : List ResItem
  windows : String
  busyThreshold : List Rat
  isServer : Bool
  rexPriority : Int

/-- Modelled from the spec: the marshaller's fail-fast decode of one host
record (sections 3 and 4.4). -/
def decodeHost (r : RawHost) : Option HostInfo :=
  if r.hostName = "" ∨ r.hostType = "" ∨ r.hostModel = "" ∨ r.windows = "" ∨
     r.cpuFactor < 0 ∨ r.maxCpus < 0 ∨ r.maxMem < 0 ∨ r.maxSwap < 0 ∨
     r.maxTmp < 0 ∨ r.nDisks < 0 then none
  else
    match decodeAll decodeResItem r.resources with
    | some rs =>
        some { hostName := r.hostName, hostType := r.hostType
               hostModel := r.hostModel, cpuFactor := r.cpuFactor
               maxCpus := r.maxCpus, maxMem := r.maxMem, maxSwap := r.maxSwap
               maxTmp := r.maxTmp, nDisks := r.nDisks
               nRes := (rs.length : Int), resources := rs
               windows := r.windows, busyThreshold := r.busyThreshold
               isServer := r.isServer, rexPriority := r.rexPriority }
    | none => none

/-- Modelled from the spec: LsInfo, the cluster-wide static catalogue —
decoded resource table with nRes its length, host type and model name
tables with their counts, architecture names, model reference indices, CPU
scaling factors, and the two index counts (section 3). -/
structure LsInfo where
  nRes : Int
  resTable : List ResItem
  nTypes : Int
  hostTypes : List String
  nModels : Int
  hostModels : List String
  hostArchs : List String
  modelRefs : List Int
  cpuFactor : List Rat
  numIndx : Int
  numUsrIndx : Int

/-- Modelled from the spec: the cluster-side state the stateless queries
read — names, the static resource table, the type/model/architecture
tables, and the per-host capability records (sections 3 and 4.2). -/
structure ClusterState where
  clusterName : String
  masterName : String
  resTable : List RawResItem
  hostTypes : List String
  hostModels : List String
  hostArchs : List String
  modelRefs : List Int
  cpuFactors : List Rat
  numIndx : Int
  numUsrIndx : Int
  hosts : List RawHost

/-- Modelled from the spec: the static-info query — builds the LsInfo
snapshot, decoding every resource definition through the fail-fast
marshaller (sections 4.2 and 4.4). -/
def ls_info (cs : ClusterState) : Option LsInfo :=
  match decodeAll decodeResItem cs.resTable with
  | some rt =>
      some { nRes := (rt.length : Int), resTable := rt
             nTypes := (cs.hostTypes.length : Int), hostTypes := cs.hostTypes
             nModels := (cs.hostModels.length : Int), hostModels := cs.hostModels
             hostArchs := cs.hostArchs, modelRefs := cs.modelRefs
             cpuFactor := cs.cpuFactors
             numIndx := cs.numIndx, numUsrIndx := cs.numUsrIndx }
  | none => none

/-- Modelled from the spec: the host-info query — one decoded HostInfo per
host record, each through the fail-fast marshaller (section 4.2). -/
def ls_gethostinfo (cs : ClusterState) : Option (List HostInfo) :=
  decodeAll decodeHost cs.hosts

/-- Modelled from the spec: the host-type point lookup — NotFound (no
result) when the host is unknown (section 4.2). -/
def ls_gethosttype (cs : ClusterState) (name : String) : Option String :=
  (cs.hosts.find? (fun h => h.hostName == name)).map (fun h => h.hostType)

/-- Modelled from the spec: the host-model point lookup (section 4.2). -/
def ls_gethostmodel (cs : ClusterState) (name : String) : Option String :=
  (cs.hosts.find? (fun h => h.hostName == name)).map (fun h => h.hostModel)

/-- A valid concrete submission template: one asked host, no transfer
directives, all ten limits unset. -/
def sampleSubmit : Submit :=
  { Submit.empty with
      command := "sleep 60", numProcessors := 1, maxNumProcessors := 1
      numAskedHosts := 1, askedHosts := ["hostA"] }

/-- A valid concrete resource-usage record: one process, one process
group. -/
def sampleRusage : RunRusage :=
  { mem := 1024, swap := 2048, utime := 3, stime := 1
    npids := 1, pidInfo := [{ pid := 123, ppid := 1, pgid := 123, jobid := 100 }]
    npgids := 1, pgid := [123] }

/-- A valid concrete raw job record, consistent in every count field. -/
def sampleRawJob : RawJob :=
  { jobId := 100, user := "alice", status := 4, reasons := 0, subreasons := 0
    numReasons := 0, jobPid := 123
    submitTime := 1388534400, reserveTime := 1388534460, startTime := 1388534520
    predictedStartTime := 1388534520, endTime := 1388538000
    umask := 18, cwd := "/home/alice", subHomeDir := "/home/alice"
    fromHost := "hostA", exHosts := ["hostB"], numExHosts := 1
    nIdx := 2, loadSched := [1, 2], loadStop := [3, 4]
    exitStatus := 0, execUid := 1000, execHome := "/home/alice"
    execCwd := "/home/alice", execUsername := "alice"
    jType := 0, port := 0, jobPriority := 0, jRusageUpdateTime := 1388534520
    parentGroup := "/", jName := "sleeper", counter := [0, 0, 0, 0, 0, 0, 0]
    cpuFactor := 1, cpuTime := 2
    submit := sampleSubmit, runRusage := sampleRusage }

/-- An open cursor session holding the sample job. -/
def sampleConn : JobConn :=
  { errno := LsbErrno.NoError, cursor := CursorStatus.opened, pending := [sampleRawJob] }

/-- The cursor session after the sample job has been read. -/
def sampleConnAfter : JobConn :=
  { errno := LsbErrno.NoError, cursor := CursorStatus.opened, pending := [] }

/-- A valid concrete queue record. -/
def sampleQueue : QueueInfoEnt :=
  { queue := "normal", description := "default queue", priority := 30, nice := 0
    userList := ["alice"], hostList := ["hostA"]
    nIdx := 1, loadSched := [1], loadStop := [2]
    userJobLimit := 10, procJobLimit := 2, windows := "-"
    rLimits := List.replicate 11 (-1), hostSpec := "hostA"
    qAttrib := 0, qStatus := 0, maxJobs := 100, numJobs := 1
    numPEND := 1, numRUN := 0, numSSUSP := 0, numUSUSP := 0
    mig := -1, schedDelay := 0, acceptIntvl := 1 }

/-- A concrete batch connection state holding the sample queue. -/
def sampleBatch : BatchState :=
  { nextJobId := 101, submitted := [], queues := [sampleQueue], errno := LsbErrno.NoError }

/-- A valid concrete raw resource definition. -/
def sampleRawRes : RawResItem :=
  { name := "mem", des := "available memory", flags := 1, interval := 15
    valueType := 1, orderType := 1 }

/-- A valid concrete raw host record with no host-local resources. -/
def sampleRawHost : RawHost :=
  { hostName := "hostA", hostType := "linux", hostModel := "IntelPC"
    cpuFactor := 1, maxCpus := 4, maxMem := 1024, maxSwap := 2048
    maxTmp := 512, nDisks := 1, resources := [], windows := "-"
    busyThreshold := [], isServer := true, rexPriority := 0 }

/-- The decoded snapshot of the sample host. -/
def sampleHostA : HostInfo :=
  { hostName := "hostA", hostType := "linux", hostModel := "IntelPC"
    cpuFactor := 1, maxCpus := 4, maxMem := 1024, maxSwap := 2048
    maxTmp := 512, nDisks := 1, nRes := 0, resources := [], windows := "-"
    busyThreshold := [], isServer := true, rexPriority := 0 }

/-- A concrete cluster state with one resource and one host. -/
def sampleCluster : ClusterState :=
  { clusterName := "cluster1", masterName := "hostA"
    resTable := [sampleRawRes]
    hostTypes := ["linux"], hostModels := ["IntelPC"], hostArchs := ["x86_64"]
    modelRefs := [0], cpuFactors := [1], numIndx := 11, numUsrIndx := 0
    hosts := [sampleRawHost] }

/-- Every element of a successfully decoded list comes from some raw
element that decodes to it. -/
theorem decodeAll_mem {α β : Type} (f : α → Option β) :
    ∀ (l : List α) (l2 : List β), decodeAll f l = some l2 →
      ∀ b ∈ l2, ∃ a ∈ l, f a = some b := by
  intro l
  induction l with
  | nil =>
    intro l2 h b hb
    simp [decodeAll] at h
    subst h
    simp at hb
  | cons a rest ih =>
    intro l2 h b hb
    unfold decodeAll at h
    cases hfa : f a with
    | none => rw [hfa] at h; simp at h
    | some b0 =>
      rw [hfa] at h
      cases hrest : decodeAll f rest with
      | none => rw [hrest] at h; simp at h
      | some bs =>
        rw [hrest] at h
        simp at h
        subst h
        rcases List.mem_cons.mp hb with hb0 | hbs
        · exact ⟨a, List.mem_cons_self a rest, hb0 ▸ hfa⟩
        · obtain ⟨a2, ha2, hfa2⟩ := ih bs hrest b hbs
          exact ⟨a2, List.mem_cons_of_mem a ha2, hfa2⟩

/-- In a list whose keys are pairwise distinct, searching for the key of a
member finds exactly that member. -/
theorem find_key_of_nodup {α : Type} (key : α → String) :
    ∀ (l : List α) (r : α), (l.map key).Nodup → r ∈ l →
      l.find? (fun x => key x == key r) = some r := by
  intro l
  induction l with
  | nil => intro r _ hr; simp at hr
  | cons a rest ih =>
    intro r hnd hr
    rcases List.mem_cons.mp hr with h0 | hrest
    · subst h0
      simp [List.find?]
    · have hnd2 : (∀ x ∈ rest, ¬key x = key a) ∧ (rest.map key).Nodup := by
        simpa using hnd
      have hne : key a ≠ key r := fun he => hnd2.1 r hrest he.symm
      have hbeq : (key a == key r) = false := beq_eq_false_iff_ne.mpr hne
      simp only [List.find?, hbeq]
      exact ih r hnd2.2 hrest

/-- A successful decode means the raw record was valid and the snapshot is
its field-for-field conversion. -/
theorem decodeJob_some {r : RawJob} {j : JobInfoEnt}
    (h : decodeJob r = some j) : wfRawJob r = true ∧ j = mkJob r := by
  unfold decodeJob at h
  by_cases hw : wfRawJob r
  · rw [if_pos hw] at h
    exact ⟨hw, (Option.some_inj.mp h).symm⟩
  · rw [if_neg hw] at h
    exact absurd h (by simp)

/-- A record handed back by the cursor's read call came from the head of
the pending session set and passed the marshaller. -/
theorem readjobinfo_some {c c2 : JobConn} {j : JobInfoEnt}
    (h : lsb_readjobinfo c = (some j, c2)) :
    ∃ r rest, c.pending = r :: rest ∧ decodeJob r = some j := by
  obtain ⟨e, cur, pend⟩ := c
  cases cur with
  | closed => simp [lsb_readjobinfo] at h
  | opened =>
    cases pend with
    | nil => simp [lsb_readjobinfo] at h
    | cons r rest =>
      cases hd : decodeJob r with
      | none => simp [lsb_readjobinfo, hd] at h
      | some j0 =>
        simp only [lsb_readjobinfo, hd, Prod.mk.injEq, Option.some.injEq] at h
        obtain ⟨h1, _⟩ := h
        cases h1
        exact ⟨r, rest, rfl, hd⟩

/-- The count/array and limit facts packed into a valid submission
template. -/
theorem wfSubmit_props {s : Submit} (h : wfSubmit s = true) :
    s.numAskedHosts = (s.askedHosts.length : Int) ∧ s.nxf = (s.xf.length : Int) ∧
    s.rLimits.length = 10 ∧ ∀ l ∈ s.rLimits, -1 ≤ l := by
  simp only [wfSubmit, Bool.and_eq_true, beq_iff_eq, decide_eq_true_eq,
    List.all_eq_true] at h
  exact ⟨h.1.1.1, h.1.1.2, h.1.2, h.2⟩

/-- The count/array and limit facts packed into a valid resource-usage
record. -/
theorem wfRunRusage_props {ru : RunRusage} (h : wfRunRusage ru = true) :
    ru.npids = (ru.pidInfo.length : Int) ∧ ru.npgids = (ru.pgid.length : Int) ∧
    -1 ≤ ru.mem ∧ -1 ≤ ru.swap ∧ -1 ≤ ru.utime ∧ -1 ≤ ru.stime ∧
    (∀ p ∈ ru.pidInfo, -1 ≤ p.pid ∧ -1 ≤ p.ppid ∧ -1 ≤ p.pgid ∧ -1 ≤ p.jobid) ∧
    (∀ g ∈ ru.pgid, -1 ≤ g) := by
  simp only [wfRunRusage, Bool.and_eq_true, beq_iff_eq, decide_eq_true_eq,
    List.all_eq_true] at h
  exact ⟨h.1.1.1.1.1.1.1, h.1.1.1.1.1.1.2, h.1.1.1.1.1.2, h.1.1.1.1.2,
    h.1.1.1.2, h.1.1.2, fun p hp => by have hx := h.1.2 p hp; tauto, h.2⟩

/-- The top-level facts packed into a valid raw job record. -/
theorem wfRawJob_props {r : RawJob} (h : wfRawJob r = true) :
    r.nIdx = (r.loadSched.length : Int) ∧ r.nIdx = (r.loadStop.length : Int) ∧
    r.numExHosts = (r.exHosts.length : Int) ∧ r.counter.length = 7 ∧
    wfSubmit r.submit = true ∧ wfRunRusage r.runRusage = true := by
  simp only [wfRawJob, Bool.and_eq_true, beq_iff_eq] at h
  exact ⟨h.1.1.1.1.1, h.1.1.1.1.2, h.1.1.1.2, h.1.1.2, h.1.2, h.2⟩

/-- A successful queue decode means the record was valid and unchanged. -/
theorem decodeQueue_some {q0 q : QueueInfoEnt}
    (h : decodeQueue q0 = some q) : wfQueue q0 = true ∧ q = q0 := by
  unfold decodeQueue at h
  by_cases hw : wfQueue q0
  · rw [if_pos hw] at h
    exact ⟨hw, (Option.some_inj.mp h).symm⟩
  · rw [if_neg hw] at h
    exact absurd h (by simp)

/-- The limit facts packed into a valid queue record. -/
theorem wfQueue_props {q : QueueInfoEnt} (h : wfQueue q = true) :
    q.rLimits.length = 11 ∧ ∀ l ∈ q.rLimits, -1 ≤ l := by
  simp only [wfQueue, Bool.and_eq_true, beq_iff_eq, bne_iff_ne, ne_eq,
    decide_eq_true_eq, List.all_eq_true] at h
  exact ⟨h.1.1.1.2, h.1.1.2⟩

/-- A decoded valueType is one of the four documented symbolic values. -/
theorem decodeValueType_mem {v : Int} {s : String} (h : decodeValueType v = some s) :
    s = "LS_BOOLEAN" ∨ s = "LS_NUMERIC" ∨ s = "LS_STRING" ∨ s = "LS_EXTERNAL" := by
  unfold decodeValueType at h
  split_ifs at h <;> simp_all

/-- A decoded orderType is one of the three documented symbolic values. -/
theorem decodeOrderType_mem {v : Int} {s : String} (h : decodeOrderType v = some s) :
    s = "INCR" ∨ s = "DECR" ∨ s = "NA" := by
  unfold decodeOrderType at h
  split_ifs at h <;> simp_all

/-- Any successfully decoded resource definition carries only documented
symbolic values in its two enumeration fields. -/
theorem decodeResItem_enum {r : RawResItem} {res : ResItem}
    (h : decodeResItem r = some res) :
    (res.valueType = "LS_BOOLEAN" ∨ res.valueType = "LS_NUMERIC" ∨
     res.valueType = "LS_STRING" ∨ res.valueType = "LS_EXTERNAL") ∧
    (res.orderType = "INCR" ∨ res.orderType = "DECR" ∨ res.orderType = "NA") := by
  unfold decodeResItem at h
  split_ifs at h
  case _ =>
    cases hv : decodeValueType r.valueType with
    | none => rw [hv] at h; simp at h
    | some v =>
      cases ho : decodeOrderType r.orderType with
      | none => rw [hv, ho] at h; simp at h
      | some o =>
        rw [hv, ho] at h
        simp only [Option.some.injEq] at h
        subst h
        exact ⟨decodeValueType_mem hv, decodeOrderType_mem ho⟩

/-- A successful host decode keeps the identifying names and decodes the
resource list element-wise. -/
theorem decodeHost_fields {r : RawHost} {h : HostInfo}
    (hd : decodeHost r = some h) :
    h.hostName = r.hostName ∧ h.hostType = r.hostType ∧ h.hostModel = r.hostModel ∧
    decodeAll decodeResItem r.resources = some h.resources := by
  unfold decodeHost at hd
  split_ifs at hd
  case _ =>
    cases hr : decodeAll decodeResItem r.resources with
    | none => rw [hr] at hd; simp at hd
    | some rs =>
      rw [hr] at hd
      simp only [Option.some.injEq] at hd
      subst hd
      exact ⟨rfl, rfl, rfl, rfl⟩

/-- The structured-time decomposition always yields an in-range clock
reading: hour below 24, minute and second below 60. -/
def StructTime.hmsWF (t : StructTime) : Prop :=
  t.tm_hour < 24 ∧ t.tm_min < 60 ∧ t.tm_sec < 60

/-- The broken-down time of any epoch instant is an in-range clock
reading. -/
theorem gmtime_hmsWF (t : Int) : (gmtime t).hmsWF := by
  have h2 : (Int.emod t 86400).toNat < 86400 := by
    have h0 : 0 ≤ Int.emod t 86400 := Int.emod_nonneg t (by norm_num)
    have h1 : Int.emod t 86400 < 86400 := Int.emod_lt_of_pos t (by norm_num)
    omega
  refine ⟨?_, ?_, ?_⟩ <;> simp only [gmtime, StructTime.hmsWF] <;> omega

/-- The count-field/array-length agreement of one decoded job snapshot:
nIdx against both load arrays, numExHosts against exHosts, the embedded
template's numAskedHosts against askedHosts and nxf against xf, and the
embedded rusage's npids against pidInfo and npgids against pgid. -/
def countsMatch (j : JobInfoEnt) : Prop :=
  j.nIdx = (j.loadSched.length : Int) ∧
  j.nIdx = (j.loadStop.length : Int) ∧
  j.numExHosts = (j.exHosts.length : Int) ∧
  j.submit.numAskedHosts = (j.submit.askedHosts.length : Int) ∧
  j.submit.nxf = (j.submit.xf.length : Int) ∧
  j.runRusage.npids = (j.runRusage.pidInfo.length : Int) ∧
  j.runRusage.npgids = (j.runRusage.pgid.length : Int)

/-- Claim C1: for every decoded job record returned by the cursor's read
operation, each count field equals the length of its companion array —
nIdx matches loadSched and loadStop, numExHosts matches exHosts, the
embedded Submit's numAskedHosts matches askedHosts and its nxf matches xf,
and the embedded RunRusage's npids matches pidInfo and npgids matches
pgid. -/
theorem readjobinfo_counts_match (c c2 : JobConn) (j : JobInfoEnt)
    (h : lsb_readjobinfo c = (some j, c2)) : countsMatch j := by
  obtain ⟨r, rest, _, hd⟩ := readjobinfo_some h
  obtain ⟨hw, hj⟩ := decodeJob_some hd
  subst hj
  obtain ⟨h1, h2, h3, _, hs, hr⟩ := wfRawJob_props hw
  obtain ⟨hs1, hs2, _, _⟩ := wfSubmit_props hs
  obtain ⟨hr1, hr2, _⟩ := wfRunRusage_props hr
  exact ⟨h1, h2, h3, hs1, hs2, hr1, hr2⟩

/-- Witness for C1: reading the sample session returns the decoded sample
job, whose counts all match. -/
theorem readjobinfo_counts_match_witness : countsMatch (mkJob sampleRawJob) :=
  readjobinfo_counts_match sampleConn sampleConnAfter (mkJob sampleRawJob) rfl

/-- The resource-limit and rusage lower bounds of one decoded job
snapshot: the 10 template limits, the four rusage scalars, the two rusage
counts, and the four fields of every PidInfo, all at least -1. -/
def jobLimitsWF (j : JobInfoEnt) : Prop :=
  j.submit.rLimits.length = 10 ∧ (∀ l ∈ j.submit.rLimits, -1 ≤ l) ∧
  -1 ≤ j.runRusage.mem ∧ -1 ≤ j.runRusage.swap ∧
  -1 ≤ j.runRusage.utime ∧ -1 ≤ j.runRusage.stime ∧
  -1 ≤ j.runRusage.npids ∧ -1 ≤ j.runRusage.npgids ∧
  ∀ p ∈ j.runRusage.pidInfo, -1 ≤ p.pid ∧ -1 ≤ p.ppid ∧ -1 ≤ p.pgid ∧ -1 ≤ p.jobid

/-- The resource-limit lower bounds of one decoded queue record: the 11
queue limits, each at least -1. -/
def queueLimitsWF (q : QueueInfoEnt) : Prop :=
  q.rLimits.length = 11 ∧ ∀ l ∈ q.rLimits, -1 ≤ l

/-- Claim C7: for every record produced by a query — each job record with
its embedded Submit and RunRusage via the cursor's read, and each queue
record via the queue query — every resource-limit integer field (the 10
Submit rLimits and the 11 queue rLimits) and every rusage integer field
(mem, swap, utime, stime, npids, npgids, and each PidInfo's pid, ppid,
pgid, jobid) is at least -1. -/
theorem records_limits_ge_neg_one :
    (∀ c c2 j, lsb_readjobinfo c = (some j, c2) → jobLimitsWF j) ∧
    (∀ st qs, lsb_queueinfo st = some qs → ∀ q ∈ qs, queueLimitsWF q) := by
  constructor
  · intro c c2 j h
    obtain ⟨r, rest, _, hd⟩ := readjobinfo_some h
    obtain ⟨hw, hj⟩ := decodeJob_some hd
    subst hj
    obtain ⟨_, _, _, _, hs, hr⟩ := wfRawJob_props hw
    obtain ⟨_, _, hsl, hsall⟩ := wfSubmit_props hs
    obtain ⟨hr1, hr2, hm, hsw, hu, hst, hpi, _⟩ := wfRunRusage_props hr
    refine ⟨hsl, hsall, hm, hsw, hu, hst, ?_, ?_, hpi⟩
    · show -1 ≤ r.runRusage.npids
      omega
    · show -1 ≤ r.runRusage.npgids
      omega
  · intro st qs h q hq
    unfold lsb_queueinfo at h
    obtain ⟨q0, _, hq0⟩ := decodeAll_mem decodeQueue st.queues qs h q hq
    obtain ⟨hw, hqq⟩ := decodeQueue_some hq0
    subst hqq
    exact wfQueue_props hw

/-- Witness for C7: the decoded sample job and the sample queue satisfy
the limit bounds; obtained by applying the claim theorem to the sample
session and the sample batch state. -/
theorem records_limits_ge_neg_one_witness :
    jobLimitsWF (mkJob sampleRawJob) ∧ queueLimitsWF sampleQueue := by
  constructor
  · exact records_limits_ge_neg_one.1 sampleConn sampleConnAfter (mkJob sampleRawJob) rfl
  · exact records_limits_ge_neg_one.2 sampleBatch [sampleQueue] rfl sampleQueue
      (List.mem_singleton.mpr rfl)

/-- The five timestamps of a decoded job snapshot are exactly the
structured broken-down times of the raw epoch seconds. -/
def timesStructured (r : RawJob) (j : JobInfoEnt) : Prop :=
  j.submitTime = gmtime r.submitTime ∧
  j.reserveTime = gmtime r.reserveTime ∧
  j.startTime = gmtime r.startTime ∧
  j.predictedStartTime = gmtime r.predictedStartTime ∧
  j.endTime = gmtime r.endTime

/-- Claim C4: every timestamp field of a decoded job record (submitTime,
reserveTime, startTime, predictedStartTime, endTime) is exposed as a
structured time value — the broken-down calendar decomposition of the raw
seconds, with an in-range clock reading — rather than as a raw integer
count of seconds. -/
theorem decoded_job_times_structured (r : RawJob) (j : JobInfoEnt)
    (h : decodeJob r = some j) :
    timesStructured r j ∧ j.submitTime.hmsWF ∧ j.reserveTime.hmsWF ∧
    j.startTime.hmsWF ∧ j.predictedStartTime.hmsWF ∧ j.endTime.hmsWF := by
  obtain ⟨_, hj⟩ := decodeJob_some h
  subst hj
  exact ⟨⟨rfl, rfl, rfl, rfl, rfl⟩, gmtime_hmsWF _, gmtime_hmsWF _,
    gmtime_hmsWF _, gmtime_hmsWF _, gmtime_hmsWF _⟩

/-- Witness for C4: decoding the sample raw job yields structured
timestamps. -/
theorem decoded_job_times_structured_witness :
    timesStructured sampleRawJob (mkJob sampleRawJob) ∧
    (mkJob sampleRawJob).submitTime.hmsWF ∧
    (mkJob sampleRawJob).reserveTime.hmsWF ∧
    (mkJob sampleRawJob).startTime.hmsWF ∧
    (mkJob sampleRawJob).predictedStartTime.hmsWF ∧
    (mkJob sampleRawJob).endTime.hmsWF :=
  decoded_job_times_structured sampleRawJob (mkJob sampleRawJob) rfl

/-- Claim C2: opening the job cursor with a job-id filter naming an id for
which no job exists yields zero readable records as a well-defined
no-match outcome, with the ErrorRegistry set to NotFound, under the
documented convention that the open call returns a literal zero count;
the first read then signals Eof, not a record. -/
theorem openjobinfo_unknown_jobid (sched : SchedState) (c : JobConn)
    (h : ∀ jb ∈ sched.jobs, jb.jobId ≠ 1) :
    (lsb_openjobinfo sched (JobFilter.byJobId 1) c).1 = 0 ∧
    (lsb_openjobinfo sched (JobFilter.byJobId 1) c).2.errno = LsbErrno.NotFound ∧
    (lsb_openjobinfo sched (JobFilter.byJobId 1) c).2.pending = [] ∧
    (lsb_readjobinfo (lsb_openjobinfo sched (JobFilter.byJobId 1) c).2).1 = none ∧
    (lsb_readjobinfo (lsb_openjobinfo sched (JobFilter.byJobId 1) c).2).2.errno
      = LsbErrno.Eof := by
  have hf : sched.jobs.filter (matchesFilter (JobFilter.byJobId 1)) = [] := by
    rw [List.filter_eq_nil_iff]
    intro a ha
    simp only [matchesFilter, beq_iff_eq]
    exact h a ha
  simp [lsb_openjobinfo, hf, lsb_readjobinfo]

/-- Witness for C2: a scheduler holding only the sample job (id 100) has
no job with id 1, so the filtered open returns zero records, NotFound, and
an immediately exhausted session. -/
theorem openjobinfo_unknown_jobid_witness :
    (lsb_openjobinfo ⟨[sampleRawJob]⟩ (JobFilter.byJobId 1) sampleConnAfter).1 = 0 ∧
    (lsb_openjobinfo ⟨[sampleRawJob]⟩ (JobFilter.byJobId 1) sampleConnAfter).2.errno
      = LsbErrno.NotFound ∧
    (lsb_openjobinfo ⟨[sampleRawJob]⟩ (JobFilter.byJobId 1) sampleConnAfter).2.pending = [] ∧
    (lsb_readjobinfo (lsb_openjobinfo ⟨[sampleRawJob]⟩ (JobFilter.byJobId 1)
      sampleConnAfter).2).1 = none ∧
    (lsb_readjobinfo (lsb_openjobinfo ⟨[sampleRawJob]⟩ (JobFilter.byJobId 1)
      sampleConnAfter).2).2.errno = LsbErrno.Eof :=
  openjobinfo_unknown_jobid ⟨[sampleRawJob]⟩ sampleConnAfter
    (by intro jb hjb; simp only [List.mem_singleton] at hjb; subst hjb; decide)

/-- The submission template the test builds: a fresh template with the
command set to hostname and both processor counts set to 1. -/
def hostnameSubmit : Submit :=
  { Submit.empty with command := "hostname", numProcessors := 1, maxNumProcessors := 1 }

/-- Claim C3: after a successful init, submitting a fresh Submit template
whose command is hostname with numProcessors and maxNumProcessors both 1
produces a SubmitReply carrying the newly assigned job identifier, which
is at least 0; the ErrorRegistry reads NoError. -/
theorem submit_hostname_jobid_nonneg (appName : String) (st : BatchState) :
    0 ≤ lsb_init appName ∧
    0 ≤ (lsb_submit st hostnameSubmit).1.jobId ∧
    (lsb_submit st hostnameSubmit).1.jobId = (st.nextJobId : Int) ∧
    (lsb_submit st hostnameSubmit).2.errno = LsbErrno.NoError := by
  have hw : wfSubmitReq hostnameSubmit = true := by decide
  refine ⟨le_refl 0, ?_, ?_, ?_⟩ <;>
    simp [lsb_submit, hw, Int.natCast_nonneg]

/-- Claim C5: a log line that cannot be parsed does not raise to the
caller and does not terminate iteration — the call at that line returns no
record with the ErrorRegistry kind EventFormat, the line is skipped so the
collected events are exactly those of the remaining lines, and the reader
signals Eof exactly at true end of stream. -/
theorem geteventrec_skips_bad_lines :
    (∀ (pre post : List LogLine) (b : String),
        lsb_geteventrec (pre ++ LogLine.bad b :: post) pre.length =
          (none, LsbErrno.EventFormat)) ∧
    (∀ (pre post : List LogLine) (b : String),
        readEvents (pre ++ LogLine.bad b :: post) = readEvents (pre ++ post)) ∧
    (∀ (stream : List LogLine) (rowNum : Nat),
        (lsb_geteventrec stream rowNum).2 = LsbErrno.Eof ↔ stream.length ≤ rowNum) := by
  refine ⟨?_, ?_, ?_⟩
  · intro pre post b
    have hd := List.drop_left pre (LogLine.bad b :: post)
    simp [lsb_geteventrec, hd]
  · intro pre post b
    induction pre with
    | nil => simp [readEvents]
    | cons a pre ih => cases a <;> simp [readEvents, ih]
  · intro stream rowNum
    cases hdrop : stream.drop rowNum with
    | nil =>
      simp only [lsb_geteventrec, hdrop, true_iff]
      exact List.drop_eq_nil_iff.mp hdrop
    | cons l rest =>
      have hgt : ¬stream.length ≤ rowNum := by
        intro hle
        rw [List.drop_eq_nil_iff.mpr hle] at hdrop
        exact List.noConfusion hdrop
      cases l <;> simp [lsb_geteventrec, hdrop, hgt]

/-- Claim C6: the cursor close operation is valid in every state and
idempotent — after any close the cursor is Closed with no error recorded,
and closing an already-closed connection (for instance twice in a row, or
after a failed open) is a no-op. -/
theorem closejobinfo_idempotent (c : JobConn) :
    (lsb_closejobinfo c).cursor = CursorStatus.closed ∧
    (lsb_closejobinfo c).errno = LsbErrno.NoError ∧
    lsb_closejobinfo (lsb_closejobinfo c) = lsb_closejobinfo c :=
  ⟨rfl, rfl, rfl⟩

/-- The decoded form of the sample raw resource definition. -/
def sampleRes : ResItem :=
  { name := "mem", des := "available memory", flags := 1, interval := 15
    valueType := "LS_NUMERIC", orderType := "DECR" }

/-- The decoded static catalogue of the sample cluster. -/
def sampleLs : LsInfo :=
  { nRes := 1, resTable := [sampleRes], nTypes := 1, hostTypes := ["linux"]
    nModels := 1, hostModels := ["IntelPC"], hostArchs := ["x86_64"]
    modelRefs := [0], cpuFactor := [1], numIndx := 11, numUsrIndx := 0 }

/-- Claim C8: every ResItem produced by the static-info query or by the
host-info query has a valueType among the four documented symbolic values
(Boolean, Numeric, String, External) and an orderType among the three
documented symbolic values (Increasing, Decreasing, NotApplicable). -/
theorem resitem_enum_values :
    (∀ cs ls, ls_info cs = some ls → ∀ res ∈ ls.resTable,
        (res.valueType = "LS_BOOLEAN" ∨ res.valueType = "LS_NUMERIC" ∨
         res.valueType = "LS_STRING" ∨ res.valueType = "LS_EXTERNAL") ∧
        (res.orderType = "INCR" ∨ res.orderType = "DECR" ∨ res.orderType = "NA")) ∧
    (∀ cs hs, ls_gethostinfo cs = some hs → ∀ h ∈ hs, ∀ res ∈ h.resources,
        (res.valueType = "LS_BOOLEAN" ∨ res.valueType = "LS_NUMERIC" ∨
         res.valueType = "LS_STRING" ∨ res.valueType = "LS_EXTERNAL") ∧
        (res.orderType = "INCR" ∨ res.orderType = "DECR" ∨ res.orderType = "NA")) := by
  constructor
  · intro cs ls hls res hres
    unfold ls_info at hls
    cases hrt : decodeAll decodeResItem cs.resTable with
    | none => rw [hrt] at hls; exact absurd hls (by simp)
    | some rt =>
      rw [hrt] at hls
      simp only [Option.some.injEq] at hls
      subst hls
      obtain ⟨a, _, ha⟩ := decodeAll_mem decodeResItem cs.resTable rt hrt res hres
      exact decodeResItem_enum ha
  · intro cs hs hhs h hh res hres
    unfold ls_gethostinfo at hhs
    obtain ⟨rh, _, hrh⟩ := decodeAll_mem decodeHost cs.hosts hs hhs h hh
    obtain ⟨_, _, _, hras⟩ := decodeHost_fields hrh
    obtain ⟨a, _, ha⟩ := decodeAll_mem decodeResItem rh.resources h.resources hras res hres
    exact decodeResItem_enum ha

/-- Witness for C8: the static-info query on the sample cluster returns
the sample resource, whose decoded enumeration fields lie in the
documented sets. -/
theorem resitem_enum_values_witness :
    (sampleRes.valueType = "LS_BOOLEAN" ∨ sampleRes.valueType = "LS_NUMERIC" ∨
     sampleRes.valueType = "LS_STRING" ∨ sampleRes.valueType = "LS_EXTERNAL") ∧
    (sampleRes.orderType = "INCR" ∨ sampleRes.orderType = "DECR" ∨
     sampleRes.orderType = "NA") :=
  resitem_enum_values.1 sampleCluster sampleLs rfl sampleRes
    (List.mem_singleton.mpr rfl)

/-- Claim C9: when every host name in the cluster table is distinct, the
point lookups agree with the host-info snapshot — for every HostInfo in
the returned list, looking up its type by hostName yields exactly that
record's hostType, and looking up its model yields exactly its
hostModel. -/
theorem hostinfo_lookup_consistent (cs : ClusterState) (hs : List HostInfo)
    (hnd : (cs.hosts.map RawHost.hostName).Nodup)
    (hhs : ls_gethostinfo cs = some hs) :
    ∀ h ∈ hs, ls_gethosttype cs h.hostName = some h.hostType ∧
      ls_gethostmodel cs h.hostName = some h.hostModel := by
  intro h hh
  unfold ls_gethostinfo at hhs
  obtain ⟨rh, hrmem, hrh⟩ := decodeAll_mem decodeHost cs.hosts hs hhs h hh
  obtain ⟨hn, ht, hm, _⟩ := decodeHost_fields hrh
  have hfind : cs.hosts.find? (fun x => RawHost.hostName x == RawHost.hostName rh)
      = some rh :=
    find_key_of_nodup RawHost.hostName cs.hosts rh hnd hrmem
  constructor
  · unfold ls_gethosttype
    rw [hn]
    rw [show (fun x => x.hostName == rh.hostName) =
      (fun x => RawHost.hostName x == RawHost.hostName rh) from rfl, hfind]
    simp [ht]
  · unfold ls_gethostmodel
    rw [hn]
    rw [show (fun x => x.hostName == rh.hostName) =
      (fun x => RawHost.hostName x == RawHost.hostName rh) from rfl, hfind]
    simp [hm]

/-- Witness for C9: on the sample cluster (one host, distinct names) the
type and model lookups for the decoded sample host agree with the
snapshot. -/
theorem hostinfo_lookup_consistent_witness :
    ls_gethosttype sampleCluster "hostA" = some "linux" ∧
    ls_gethostmodel sampleCluster "hostA" = some "IntelPC" := by
  have h := hostinfo_lookup_consistent sampleCluster [sampleHostA]
    (by decide) rfl sampleHostA (List.mem_singleton.mpr rfl)
  exact ⟨h.1, h.2⟩

/-- Claim C10: XFile attribute assignment round-trips — on a freshly
constructed XFile, after assigning text to subFn and execFn and an
integer to options, reading each attribute back returns exactly the
assigned value. -/
theorem xfile_roundtrip (s1 s2 : String) (o : Int) :
    (((XFile.new.setSubFn s1).setExecFn s2).setOptions o).getSubFn = s1 ∧
    (((XFile.new.setSubFn s1).setExecFn s2).setOptions o).getExecFn = s2 ∧
    (((XFile.new.setSubFn s1).setExecFn s2).setOptions o).options = o := by
  obtain ⟨d1⟩ := s1
  obtain ⟨d2⟩ := s2
  exact ⟨rfl, rfl, rfl⟩
